import Mathlib

/-!
Shallow embedding of the Pokemon-NFT-Trading-App core contracts:

* `PokemonCard` (src/unnamed/part_004): an OpenZeppelin 4.x `ERC721URIStorage`
  token with public minting and an owner-gated pause switch on minting.
* `PokemonSwap` (src/contracts/PokemonSwap.sol): the escrow-based swap
  coordinator (`createSwap` / `acceptSwap` / `cancelSwap` / `pause` /
  `unpause`), built on `ReentrancyGuard`, `Pausable`, `Ownable`.

Modelling decisions:

* Accounts and token ids are natural numbers; the account `0` is the EVM zero
  address.  `swapContractAddr` is the fixed address of the deployed
  `PokemonSwap` contract.
* Solidity mappings are total functions with the zero value as default, which
  is exactly EVM storage semantics (`swaps[id]` of an absent id reads the
  all-zero struct; `delete` writes the zero value back).
* Each external entry point is a function `SwapState → ... → Except Err ...`.
  A `.error e` result models an EVM revert: the transaction is rolled back,
  so no state produced before the failure is observable; `runX` wrappers
  below make that rollback explicit.
* The ERC721 functions follow OpenZeppelin v4.x `ERC721.sol`:
  `transferFrom` first requires the caller to be owner / approved-for-all /
  per-token approved (after an implicit existence check via `ownerOf`), then
  `_transfer` requires `ownerOf(tokenId) == from` and `to != 0`, clears the
  per-token approval and reassigns the owner.  `transferFrom` performs no
  receiver callback (only `safeTransferFrom` does), so no call in this system
  can re-enter the coordinator; the `nonReentrant` lock is still modelled as
  the `locked` flag checked on entry, after `whenNotPaused`, matching the
  modifier order in the source.
* The event log is a single append-only list, in emission order, covering
  both contracts.
* In `cancelSwap` the Solidity local `Swap storage swap` is a storage
  pointer: after `delete swaps[swapId]` the emission
  `emit SwapCancelled(swapId, swap.tokenAOwner)` reads the cleared slot and
  therefore carries the zero address.  The embedding reproduces this.
-/

namespace PokeTrade

/-- Accounts are naturals; `0` is the EVM zero address. -/
abbrev Address := Nat

/-- Pointwise update of a Solidity mapping. -/
def upd {β : Type} (f : Nat → β) (k : Nat) (v : β) : Nat → β :=
  fun x => if x = k then v else f x

theorem upd_self {β : Type} (f : Nat → β) (k : Nat) (v : β) : upd f k v k = v := by
  simp [upd]

theorem upd_ne {β : Type} (f : Nat → β) (k : Nat) (v : β) (x : Nat) (h : x ≠ k) :
    upd f k v x = f x := by
  simp [upd, h]

/-- Revert reasons of the two contracts, one constructor per distinct
`require` string (ERC721 / Pausable / Ownable / ReentrancyGuard reasons
included). -/
inductive Err : Type
  | erc721InvalidTokenId            -- "ERC721: invalid token ID"
  | erc721NotOwnerNorApproved       -- "ERC721: caller is not token owner or approved"
  | erc721IncorrectOwner            -- "ERC721: transfer from incorrect owner"
  | erc721TransferToZero            -- "ERC721: transfer to the zero address"
  | erc721MintToZero                -- "ERC721: mint to the zero address"
  | erc721TokenAlreadyMinted        -- "ERC721: token already minted"
  | erc721ApproveToOwner            -- "ERC721: approval to current owner"
  | erc721ApproveNotAuthorized      -- "ERC721: approve caller is not token owner or approved for all"
  | pausablePaused                  -- "Pausable: paused"
  | pausableNotPaused               -- "Pausable: not paused"
  | ownableNotOwner                 -- "Ownable: caller is not the owner"
  | reentrantCall                   -- "ReentrancyGuard: reentrant call"
  | cannotSwapSameToken             -- "Cannot swap the same token"
  | notOwnerOfTokenA                -- "Not the owner of tokenA"
  | tokenBNotOwnedBySpecifiedOwner  -- "TokenB not owned by specified owner"
  | contractNotApprovedForTokenA    -- "Contract not approved for tokenA"
  | swapAlreadyExecuted             -- "Swap already executed"
  | notTokenBOwner                  -- "Not the tokenB owner"
  | contractNotApprovedForTokenB    -- "Contract not approved for tokenB"
  | notTokenAOwner                  -- "Not the tokenA owner"
  deriving DecidableEq, Repr

/-- Emitted facts (events) of both contracts, in emission order. -/
inductive Ev : Type
  | Transfer (src dst : Address) (tokenId : Nat)
  | Approval (holder approved : Address) (tokenId : Nat)
  | SwapCreated (swapId : Nat) (tokenAOwner : Address) (tokenA : Nat)
      (tokenBOwner : Address) (tokenB : Nat)
  | SwapExecuted (swapId : Nat) (tokenAOwner tokenBOwner : Address)
  | SwapCancelled (swapId : Nat) (tokenAOwner : Address)
  deriving DecidableEq, Repr

/-- Storage of the `PokemonCard` ERC721 contract.  `owners t = 0` means the
token does not exist (OpenZeppelin `_exists`). -/
structure ERC721State : Type where
  owners : Nat → Address
  tokenApprovals : Nat → Address
  operatorApprovals : Address → Address → Bool
  tokenURIs : Nat → String
  nextTokenId : Nat
  paused : Bool

/-- Address at which the `PokemonSwap` contract is deployed (any fixed
nonzero account distinct from the user accounts used in examples). -/
def swapContractAddr : Address := 1

/-- `ownerOf` (OZ: reverts "ERC721: invalid token ID" on a nonexistent
token). -/
def ownerOf (c : ERC721State) (tokenId : Nat) : Except Err Address :=
  if c.owners tokenId = 0 then .error .erc721InvalidTokenId
  else .ok (c.owners tokenId)

/-- `getApproved` (OZ: `_requireMinted` then return the per-token
approval). -/
def getApproved (c : ERC721State) (tokenId : Nat) : Except Err Address :=
  if c.owners tokenId = 0 then .error .erc721InvalidTokenId
  else .ok (c.tokenApprovals tokenId)

/-- `transferFrom` (OZ v4.x): `_isApprovedOrOwner(msg.sender, tokenId)`
(existence check via `ownerOf`, then owner / approved-for-all / per-token
approval), then `_transfer` (`ownerOf == from`, `to != 0`, clear the
per-token approval, reassign the owner, emit `Transfer`). -/
def transferFrom (c : ERC721State) (caller fromAddr toAddr : Address) (tokenId : Nat) :
    Except Err (ERC721State × List Ev) :=
  if c.owners tokenId = 0 then .error .erc721InvalidTokenId
  else if ¬ (caller = c.owners tokenId ∨
             c.operatorApprovals (c.owners tokenId) caller = true ∨
             c.tokenApprovals tokenId = caller) then .error .erc721NotOwnerNorApproved
  else if c.owners tokenId ≠ fromAddr then .error .erc721IncorrectOwner
  else if toAddr = 0 then .error .erc721TransferToZero
  else .ok ({ c with
                owners := upd c.owners tokenId toAddr,
                tokenApprovals := upd c.tokenApprovals tokenId 0 },
            [.Transfer fromAddr toAddr tokenId])

/-- `approve` (OZ v4.x): owner lookup (reverts on nonexistent token),
`to != owner`, caller is owner or approved-for-all, then set the per-token
approval and emit `Approval`. -/
def approve (c : ERC721State) (caller toAddr : Address) (tokenId : Nat) :
    Except Err (ERC721State × List Ev) :=
  if c.owners tokenId = 0 then .error .erc721InvalidTokenId
  else if toAddr = c.owners tokenId then .error .erc721ApproveToOwner
  else if ¬ (caller = c.owners tokenId ∨
             c.operatorApprovals (c.owners tokenId) caller = true) then
    .error .erc721ApproveNotAuthorized
  else .ok ({ c with tokenApprovals := upd c.tokenApprovals tokenId toAddr },
            [.Approval (c.owners tokenId) toAddr tokenId])

/-- `PokemonCard.mint` (src/unnamed/part_004): `whenNotPaused`, then
`_safeMint(to, _nextTokenId)` (`to != 0`, token not already minted), store
the URI, increment `_nextTokenId`.  The `onERC721Received` callback check of
`_safeMint` is a no-op for externally-owned accounts and is not modelled. -/
def mint (c : ERC721State) (toAddr : Address) (uri : String) :
    Except Err (ERC721State × List Ev) :=
  if c.paused then .error .pausablePaused
  else if toAddr = 0 then .error .erc721MintToZero
  else if c.owners c.nextTokenId ≠ 0 then .error .erc721TokenAlreadyMinted
  else .ok ({ c with
                owners := upd c.owners c.nextTokenId toAddr,
                tokenURIs := upd c.tokenURIs c.nextTokenId uri,
                nextTokenId := c.nextTokenId + 1 },
            [.Transfer 0 toAddr c.nextTokenId])

/-- The `Swap` struct of `PokemonSwap.sol` (lines 15-21). -/
structure Swap : Type where
  tokenAOwner : Address
  tokenA : Nat
  tokenBOwner : Address
  tokenB : Nat
  executed : Bool
  deriving DecidableEq, Repr

/-- The all-zero `Swap` struct: what `swaps[id]` reads for an id that was
never written or was `delete`d. -/
def zeroSwap : Swap :=
  { tokenAOwner := 0, tokenA := 0, tokenBOwner := 0, tokenB := 0, executed := false }

/-- Combined world state: the `PokemonCard` storage, the `PokemonSwap`
storage (`swaps` mapping, `nextSwapId`, `Pausable` flag, `ReentrancyGuard`
lock, `Ownable` owner) and the append-only event log. -/
structure SwapState : Type where
  card : ERC721State
  swaps : Nat → Swap
  nextSwapId : Nat
  paused : Bool
  locked : Bool
  owner : Address
  events : List Ev

/-- `createSwap(tokenA, tokenBOwner, tokenB)` (PokemonSwap.sol lines 49-69),
with `caller = msg.sender`.  Modifier order: `whenNotPaused` then
`nonReentrant`; then the four `require`s in source order; then the record is
written under `nextSwapId++`, tokenA is pulled into escrow, and
`SwapCreated` is emitted. -/
def createSwap (s : SwapState) (caller : Address) (tokenA : Nat)
    (tokenBOwner : Address) (tokenB : Nat) : Except Err (SwapState × Nat) :=
  if s.paused then .error .pausablePaused
  else if s.locked then .error .reentrantCall
  else if tokenA = tokenB then .error .cannotSwapSameToken
  else match ownerOf s.card tokenA with
    | .error e => .error e
    | .ok oA =>
      if oA ≠ caller then .error .notOwnerOfTokenA
      else match ownerOf s.card tokenB with
        | .error e => .error e
        | .ok oB =>
          if oB ≠ tokenBOwner then .error .tokenBNotOwnedBySpecifiedOwner
          else match getApproved s.card tokenA with
            | .error e => .error e
            | .ok ap =>
              if ap ≠ swapContractAddr then .error .contractNotApprovedForTokenA
              else
                match transferFrom s.card swapContractAddr caller swapContractAddr tokenA with
                | .error e => .error e
                | .ok (c', evs) =>
                  .ok ({ s with
                           card := c',
                           swaps := upd s.swaps s.nextSwapId
                             { tokenAOwner := caller, tokenA := tokenA,
                               tokenBOwner := tokenBOwner, tokenB := tokenB,
                               executed := false },
                           nextSwapId := s.nextSwapId + 1,
                           events := s.events ++ evs ++
                             [.SwapCreated s.nextSwapId caller tokenA tokenBOwner tokenB] },
                       s.nextSwapId)

/-- `acceptSwap(swapId)` (PokemonSwap.sol lines 73-88), with
`caller = msg.sender`.  Note the source performs no explicit
`ownerOf(tokenB) == msg.sender` re-check: after the `executed`, counterparty
and approval checks it immediately attempts the three transfers (tokenB from
counterparty into escrow, tokenA from escrow to counterparty, tokenB from
escrow to proposer), then sets `executed = true` and emits `SwapExecuted`. -/
def acceptSwap (s : SwapState) (caller : Address) (swapId : Nat) :
    Except Err SwapState :=
  if s.paused then .error .pausablePaused
  else if s.locked then .error .reentrantCall
  else if (s.swaps swapId).executed then .error .swapAlreadyExecuted
  else if caller ≠ (s.swaps swapId).tokenBOwner then .error .notTokenBOwner
  else match getApproved s.card (s.swaps swapId).tokenB with
    | .error e => .error e
    | .ok ap =>
      if ap ≠ swapContractAddr then .error .contractNotApprovedForTokenB
      else match transferFrom s.card swapContractAddr (s.swaps swapId).tokenBOwner
                    swapContractAddr (s.swaps swapId).tokenB with
        | .error e => .error e
        | .ok (c1, e1) =>
          match transferFrom c1 swapContractAddr swapContractAddr
                  (s.swaps swapId).tokenBOwner (s.swaps swapId).tokenA with
          | .error e => .error e
          | .ok (c2, e2) =>
            match transferFrom c2 swapContractAddr swapContractAddr
                    (s.swaps swapId).tokenAOwner (s.swaps swapId).tokenB with
            | .error e => .error e
            | .ok (c3, e3) =>
              .ok { s with
                      card := c3,
                      swaps := upd s.swaps swapId
                        { s.swaps swapId with executed := true },
                      events := s.events ++ e1 ++ e2 ++ e3 ++
                        [.SwapExecuted swapId (s.swaps swapId).tokenAOwner
                          (s.swaps swapId).tokenBOwner] }

/-- `cancelSwap(swapId)` (PokemonSwap.sol lines 92-104), with
`caller = msg.sender`.  After returning tokenA the source does
`delete swaps[swapId]` and only then
`emit SwapCancelled(swapId, swap.tokenAOwner)`; `swap` is a storage pointer,
so the emitted `tokenAOwner` is read from the already-cleared slot and is
the zero address (`zeroSwap.tokenAOwner`). -/
def cancelSwap (s : SwapState) (caller : Address) (swapId : Nat) :
    Except Err SwapState :=
  if s.paused then .error .pausablePaused
  else if s.locked then .error .reentrantCall
  else if (s.swaps swapId).executed then .error .swapAlreadyExecuted
  else if caller ≠ (s.swaps swapId).tokenAOwner then .error .notTokenAOwner
  else match transferFrom s.card swapContractAddr swapContractAddr
                (s.swaps swapId).tokenAOwner (s.swaps swapId).tokenA with
    | .error e => .error e
    | .ok (c1, e1) =>
      .ok { s with
              card := c1,
              swaps := upd s.swaps swapId zeroSwap,
              events := s.events ++ e1 ++
                [.SwapCancelled swapId zeroSwap.tokenAOwner] }

/-- `pause()` (PokemonSwap.sol lines 107-109): `onlyOwner`, then OZ `_pause`
which itself carries `whenNotPaused`. -/
def pause (s : SwapState) (caller : Address) : Except Err SwapState :=
  if caller ≠ s.owner then .error .ownableNotOwner
  else if s.paused then .error .pausablePaused
  else .ok { s with paused := true }

/-- `unpause()` (PokemonSwap.sol lines 112-114): `onlyOwner`, then OZ
`_unpause` which itself carries `whenPaused`. -/
def unpause (s : SwapState) (caller : Address) : Except Err SwapState :=
  if caller ≠ s.owner then .error .ownableNotOwner
  else if ¬ s.paused then .error .pausableNotPaused
  else .ok { s with paused := false }

/-- A direct user call to `PokemonCard.transferFrom`, lifted to the world
state. -/
def cardTransferFrom (s : SwapState) (caller fromAddr toAddr : Address)
    (tokenId : Nat) : Except Err SwapState :=
  match transferFrom s.card caller fromAddr toAddr tokenId with
  | .error e => .error e
  | .ok (c', evs) => .ok { s with card := c', events := s.events ++ evs }

/-- A direct user call to `PokemonCard.approve`, lifted to the world
state. -/
def cardApprove (s : SwapState) (caller toAddr : Address) (tokenId : Nat) :
    Except Err SwapState :=
  match approve s.card caller toAddr tokenId with
  | .error e => .error e
  | .ok (c', evs) => .ok { s with card := c', events := s.events ++ evs }

/-- A direct user call to `PokemonCard.mint`, lifted to the world state. -/
def cardMint (s : SwapState) (toAddr : Address) (uri : String) :
    Except Err SwapState :=
  match mint s.card toAddr uri with
  | .error e => .error e
  | .ok (c', evs) => .ok { s with card := c', events := s.events ++ evs }

/-- Freshly deployed `PokemonCard` storage: no tokens, `_nextTokenId = 1`,
not paused. -/
def initCard : ERC721State :=
  { owners := fun _ => 0, tokenApprovals := fun _ => 0,
    operatorApprovals := fun _ _ => false, tokenURIs := fun _ => "",
    nextTokenId := 1, paused := false }

/-- Freshly deployed world: empty `swaps` mapping, `nextSwapId = 1`
(PokemonSwap.sol line 27), unpaused, unlocked, `Ownable` owner set to the
deployer. -/
def initState (deployer : Address) : SwapState :=
  { card := initCard, swaps := fun _ => zeroSwap, nextSwapId := 1,
    paused := false, locked := false, owner := deployer, events := [] }

/-- Caller-observable result of an external call: an EVM revert rolls the
whole transaction back, so on `.error` the observable state is the initial
one. -/
def runCreateSwap (s : SwapState) (caller : Address) (tokenA : Nat)
    (tokenBOwner : Address) (tokenB : Nat) : SwapState :=
  match createSwap s caller tokenA tokenBOwner tokenB with
  | .ok (s', _) => s'
  | .error _ => s

/-- Rollback-aware wrapper of `acceptSwap` (see `runCreateSwap`). -/
def runAcceptSwap (s : SwapState) (caller : Address) (swapId : Nat) : SwapState :=
  match acceptSwap s caller swapId with
  | .ok s' => s'
  | .error _ => s

/-- Rollback-aware wrapper of `cancelSwap` (see `runCreateSwap`). -/
def runCancelSwap (s : SwapState) (caller : Address) (swapId : Nat) : SwapState :=
  match cancelSwap s caller swapId with
  | .ok s' => s'
  | .error _ => s

/-- Rollback-aware wrapper of `cardMint` (see `runCreateSwap`). -/
def runCardMint (s : SwapState) (toAddr : Address) (uri : String) : SwapState :=
  match cardMint s toAddr uri with
  | .ok s' => s'
  | .error _ => s

/-- Rollback-aware wrapper of `cardTransferFrom` (see `runCreateSwap`). -/
def runCardTransferFrom (s : SwapState) (caller fromAddr toAddr : Address)
    (tokenId : Nat) : SwapState :=
  match cardTransferFrom s caller fromAddr toAddr tokenId with
  | .ok s' => s'
  | .error _ => s

/-- Concrete world used in witnesses: accounts 10 (proposer A) and 11
(counterparty B); token 1 is escrowed with the coordinator under pending
swap 1 = (A offers token 1 for B's token 2), token 2 is held by B with the
coordinator approved. -/
def witPending : SwapState :=
  { card := { initCard with
                owners := upd (upd (fun _ => 0) 1 swapContractAddr) 2 11,
                tokenApprovals := upd (fun _ => 0) 2 swapContractAddr,
                nextTokenId := 3 },
    swaps := upd (fun _ => zeroSwap) 1
      { tokenAOwner := 10, tokenA := 1, tokenBOwner := 11, tokenB := 2,
        executed := false },
    nextSwapId := 2, paused := false, locked := false, owner := 10,
    events := [] }

/-- Like `witPending`, but the counterparty has since transferred token 2 to
account 12, which cleared the per-token approval: the recorded swap is
stale. -/
def witStale : SwapState :=
  { witPending with
      card := { witPending.card with
                  owners := upd (upd (fun _ => 0) 1 swapContractAddr) 2 12,
                  tokenApprovals := fun _ => 0 } }

/-- Like `witStale`, but the new holder 12 has re-approved the coordinator
for token 2. -/
def witStaleApproved : SwapState :=
  { witStale with
      card := { witStale.card with
                  tokenApprovals := upd (fun _ => 0) 2 swapContractAddr } }

/-- Concrete world before any swap: account 10 holds token 1 (coordinator
approved), account 11 holds token 2; the `swaps` mapping is empty and
`nextSwapId = 1`. -/
def witFresh : SwapState :=
  { card := { initCard with
                owners := upd (upd (fun _ => 0) 1 10) 2 11,
                tokenApprovals := upd (fun _ => 0) 1 swapContractAddr,
                nextTokenId := 3 },
    swaps := fun _ => zeroSwap, nextSwapId := 1, paused := false,
    locked := false, owner := 10, events := [] }

/-- `witPending` after the counterparty successfully accepts swap 1. -/
def witAccepted : SwapState := runAcceptSwap witPending 11 1

/-- `witPending` after the proposer successfully cancels swap 1. -/
def witCancelled : SwapState := runCancelSwap witPending 10 1

/-- `witFresh` after account 10 successfully creates swap 1. -/
def witCreated : SwapState := runCreateSwap witFresh 10 1 11 2

/-- `witPending` with the pause switch engaged. -/
def witPaused : SwapState := { witPending with paused := true }

example : acceptSwap witPending 11 1 = .ok witAccepted := rfl
example : witAccepted.card.owners 1 = 11 := rfl
example : witAccepted.card.owners 2 = 10 := rfl
example : (witAccepted.swaps 1).executed = true := rfl
example : cancelSwap witPending 10 1 = .ok witCancelled := rfl
example : witCancelled.card.owners 1 = 10 := rfl
example : witCancelled.swaps 1 = zeroSwap := rfl
example : witCancelled.events = [.Transfer swapContractAddr 10 1, .SwapCancelled 1 0] := rfl
example : createSwap witFresh 10 1 11 2 = .ok (witCreated, 1) := rfl
example : witCreated.card.owners 1 = swapContractAddr := rfl
example : acceptSwap witStale 11 1 = .error .contractNotApprovedForTokenB := rfl
example : acceptSwap witStaleApproved 11 1 = .error .erc721IncorrectOwner := rfl
example : cancelSwap witCancelled 10 1 = .error .notTokenAOwner := rfl
example : acceptSwap witCancelled 11 1 = .error .notTokenBOwner := rfl
example : acceptSwap witAccepted 11 1 = .error .swapAlreadyExecuted := rfl
example : createSwap witPaused 10 3 11 3 = .error .pausablePaused := rfl
example : createSwap witFresh 10 3 11 3 = .error .cannotSwapSameToken := rfl

/-- Inversion of a successful ERC721 `transferFrom`: the token was held by
`fromAddr`, both endpoints are nonzero, the only storage changes are the
reassigned owner and the cleared per-token approval, and exactly one
`Transfer` fact is emitted. -/
theorem transferFrom_ok {c c' : ERC721State} {caller fromAddr toAddr : Address}
    {tokenId : Nat} {evs : List Ev}
    (h : transferFrom c caller fromAddr toAddr tokenId = .ok (c', evs)) :
    c.owners tokenId = fromAddr ∧ fromAddr ≠ 0 ∧ toAddr ≠ 0 ∧
    c' = { c with owners := upd c.owners tokenId toAddr,
                  tokenApprovals := upd c.tokenApprovals tokenId 0 } ∧
    evs = [Ev.Transfer fromAddr toAddr tokenId] := by
  unfold transferFrom at h
  split at h
  · simp at h
  rename_i h0
  split at h
  · simp at h
  split at h
  · simp at h
  rename_i hFrom
  split at h
  · simp at h
  rename_i hTo
  rw [not_not] at hFrom
  injection h with h
  rw [Prod.mk.injEq] at h
  obtain ⟨hc, hevs⟩ := h
  subst hFrom
  exact ⟨rfl, h0, hTo, hc.symm, hevs.symm⟩

/-- Inversion of a successful `getApproved`: the token exists and the result
is the stored per-token approval. -/
theorem getApproved_ok {c : ERC721State} {tokenId : Nat} {a : Address}
    (h : getApproved c tokenId = .ok a) :
    c.owners tokenId ≠ 0 ∧ a = c.tokenApprovals tokenId := by
  unfold getApproved at h
  split at h
  · simp at h
  rename_i h0
  injection h with h
  exact ⟨h0, h.symm⟩

/-- Inversion of a successful `ownerOf`: the result is the stored holder and
it is nonzero. -/
theorem ownerOf_ok {c : ERC721State} {tokenId : Nat} {a : Address}
    (h : ownerOf c tokenId = .ok a) :
    a = c.owners tokenId ∧ c.owners tokenId ≠ 0 := by
  unfold ownerOf at h
  split at h
  · simp at h
  rename_i h0
  injection h with h
  exact ⟨h.symm, h0⟩

/-- Boolean success test of an external call. -/
def exceptIsOk {α : Type} : Except Err α → Bool
  | .ok _ => true
  | .error _ => false

/-- Full inversion of a successful `acceptSwap`: the preconditions that must
have held and the exact resulting state. -/
theorem acceptSwap_ok_inv {s s' : SwapState} {caller : Address} {swapId : Nat}
    (h : acceptSwap s caller swapId = .ok s') :
    s.paused = false ∧ s.locked = false ∧
    (s.swaps swapId).executed = false ∧
    caller = (s.swaps swapId).tokenBOwner ∧
    s.card.owners (s.swaps swapId).tokenB = (s.swaps swapId).tokenBOwner ∧
    (s.swaps swapId).tokenBOwner ≠ 0 ∧
    (s.swaps swapId).tokenAOwner ≠ 0 ∧
    s' = { s with
             card := { s.card with
                         owners := upd (upd (upd s.card.owners
                             (s.swaps swapId).tokenB swapContractAddr)
                             (s.swaps swapId).tokenA (s.swaps swapId).tokenBOwner)
                             (s.swaps swapId).tokenB (s.swaps swapId).tokenAOwner,
                         tokenApprovals := upd (upd (upd s.card.tokenApprovals
                             (s.swaps swapId).tokenB 0)
                             (s.swaps swapId).tokenA 0)
                             (s.swaps swapId).tokenB 0 },
             swaps := upd s.swaps swapId { s.swaps swapId with executed := true },
             events := s.events ++
               [Ev.Transfer (s.swaps swapId).tokenBOwner swapContractAddr (s.swaps swapId).tokenB] ++
               [Ev.Transfer swapContractAddr (s.swaps swapId).tokenBOwner (s.swaps swapId).tokenA] ++
               [Ev.Transfer swapContractAddr (s.swaps swapId).tokenAOwner (s.swaps swapId).tokenB] ++
               [Ev.SwapExecuted swapId (s.swaps swapId).tokenAOwner (s.swaps swapId).tokenBOwner] } := by
  unfold acceptSwap at h
  split at h
  · simp at h
  rename_i hp
  split at h
  · simp at h
  rename_i hl
  split at h
  · simp at h
  rename_i hex
  split at h
  · simp at h
  rename_i hcaller
  rw [not_not] at hcaller
  split at h
  · simp at h
  split at h
  · simp at h
  split at h
  · simp at h
  rename_i c1 e1 ht1
  split at h
  · simp at h
  rename_i c2 e2 ht2
  split at h
  · simp at h
  rename_i c3 e3 ht3
  injection h with h
  subst h
  obtain ⟨hown1, hbo, _, hc1, he1⟩ := transferFrom_ok ht1
  obtain ⟨hown2, _, _, hc2, he2⟩ := transferFrom_ok ht2
  obtain ⟨hown3, _, hao, hc3, he3⟩ := transferFrom_ok ht3
  subst hc1; subst hc2; subst hc3
  subst he1; subst he2; subst he3
  refine ⟨by simpa using hp, by simpa using hl, by simpa using hex,
          hcaller, hown1, hbo, hao, rfl⟩

/-- Full inversion of a successful `cancelSwap`: the preconditions that must
have held and the exact resulting state (record erased; `SwapCancelled`
emitted with the zero address read from the cleared slot). -/
theorem cancelSwap_ok_inv {s s' : SwapState} {caller : Address} {swapId : Nat}
    (h : cancelSwap s caller swapId = .ok s') :
    s.paused = false ∧ s.locked = false ∧
    (s.swaps swapId).executed = false ∧
    caller = (s.swaps swapId).tokenAOwner ∧
    (s.swaps swapId).tokenAOwner ≠ 0 ∧
    s.card.owners (s.swaps swapId).tokenA = swapContractAddr ∧
    s' = { s with
             card := { s.card with
                         owners := upd s.card.owners (s.swaps swapId).tokenA
                           (s.swaps swapId).tokenAOwner,
                         tokenApprovals := upd s.card.tokenApprovals
                           (s.swaps swapId).tokenA 0 },
             swaps := upd s.swaps swapId zeroSwap,
             events := s.events ++
               [Ev.Transfer swapContractAddr (s.swaps swapId).tokenAOwner (s.swaps swapId).tokenA] ++
               [Ev.SwapCancelled swapId 0] } := by
  unfold cancelSwap at h
  split at h
  · simp at h
  rename_i hp
  split at h
  · simp at h
  rename_i hl
  split at h
  · simp at h
  rename_i hex
  split at h
  · simp at h
  rename_i hcaller
  rw [not_not] at hcaller
  split at h
  · simp at h
  rename_i c1 e1 ht1
  injection h with h
  subst h
  obtain ⟨hown1, _, hao, hc1, he1⟩ := transferFrom_ok ht1
  subst hc1; subst he1
  exact ⟨by simpa using hp, by simpa using hl, by simpa using hex,
         hcaller, hao, hown1, rfl⟩

/-- Full inversion of a successful `createSwap`: the preconditions that must
have held, the returned id, and the exact resulting state. -/
theorem createSwap_ok_inv {s s' : SwapState} {caller tokenBOwner : Address}
    {tokenA tokenB swapId : Nat}
    (h : createSwap s caller tokenA tokenBOwner tokenB = .ok (s', swapId)) :
    s.paused = false ∧ s.locked = false ∧ tokenA ≠ tokenB ∧
    s.card.owners tokenA = caller ∧ caller ≠ 0 ∧
    s.card.owners tokenB = tokenBOwner ∧ tokenBOwner ≠ 0 ∧
    s.card.tokenApprovals tokenA = swapContractAddr ∧
    swapId = s.nextSwapId ∧
    s' = { s with
             card := { s.card with
                         owners := upd s.card.owners tokenA swapContractAddr,
                         tokenApprovals := upd s.card.tokenApprovals tokenA 0 },
             swaps := upd s.swaps s.nextSwapId
               { tokenAOwner := caller, tokenA := tokenA,
                 tokenBOwner := tokenBOwner, tokenB := tokenB,
                 executed := false },
             nextSwapId := s.nextSwapId + 1,
             events := s.events ++ [Ev.Transfer caller swapContractAddr tokenA] ++
               [Ev.SwapCreated s.nextSwapId caller tokenA tokenBOwner tokenB] } := by
  unfold createSwap at h
  split at h
  · simp at h
  rename_i hp
  split at h
  · simp at h
  rename_i hl
  split at h
  · simp at h
  rename_i hab
  split at h
  · simp at h
  rename_i oA hoA
  split at h
  · simp at h
  rename_i hoAcaller
  rw [not_not] at hoAcaller
  split at h
  · simp at h
  rename_i oB hoB
  split at h
  · simp at h
  rename_i hoBowner
  rw [not_not] at hoBowner
  split at h
  · simp at h
  rename_i ap hap
  split at h
  · simp at h
  rename_i hapAddr
  rw [not_not] at hapAddr
  split at h
  · simp at h
  rename_i c' evs ht
  injection h with h
  rw [Prod.mk.injEq] at h
  obtain ⟨hs', hid⟩ := h
  subst hs'; subst hid
  obtain ⟨hoA', hzA⟩ := ownerOf_ok hoA
  obtain ⟨hoB', hzB⟩ := ownerOf_ok hoB
  obtain ⟨_, hap'⟩ := getApproved_ok hap
  obtain ⟨_, _, _, hc, he⟩ := transferFrom_ok ht
  subst hc; subst he
  subst hoAcaller; subst hoBowner; subst hapAddr
  subst hoA'; subst hoB'
  exact ⟨by simpa using hp, by simpa using hl, hab, rfl, hzA, rfl, hzB,
         hap'.symm, rfl, rfl⟩

/-- `ownerOf` can only fail with the invalid-token revert. -/
theorem ownerOf_error {c : ERC721State} {tokenId : Nat} {e : Err}
    (h : ownerOf c tokenId = .error e) : e = .erc721InvalidTokenId := by
  unfold ownerOf at h
  split at h
  · injection h with h
    exact h.symm
  · simp at h

/-- `getApproved` can only fail with the invalid-token revert. -/
theorem getApproved_error {c : ERC721State} {tokenId : Nat} {e : Err}
    (h : getApproved c tokenId = .error e) : e = .erc721InvalidTokenId := by
  unfold getApproved at h
  split at h
  · injection h with h
    exact h.symm
  · simp at h

/-- When the coordinator holds the per-token approval for a token held by a
nonzero account, its escrow pull `transferFrom(who, coordinator, t)` cannot
fail. -/
theorem transferFrom_by_approved_operator_ok (c : ERC721State) (who : Address)
    (t : Nat) (hexists : c.owners t = who) (hwho : who ≠ 0)
    (hap : c.tokenApprovals t = swapContractAddr) :
    transferFrom c swapContractAddr who swapContractAddr t =
      .ok ({ c with owners := upd c.owners t swapContractAddr,
                    tokenApprovals := upd c.tokenApprovals t 0 },
           [Ev.Transfer who swapContractAddr t]) := by
  unfold transferFrom
  simp [hexists, hwho, hap, swapContractAddr]

/-- C1: if `acceptSwap(swapId)` called by `caller` succeeds on a pending
swap (whose two assets are distinct, as `createSwap` guarantees for every
record it writes), then afterwards the proposer's asset (`tokenA`) is held
by `caller`, the counterparty's asset (`tokenB`) is held by the proposer
(`tokenAOwner`), the swap is marked executed, and the emitted facts are
exactly three transfers in this order — `tokenB` from `caller` into
coordinator custody, `tokenA` from custody to `caller`, `tokenB` from
custody to the proposer — followed by the `SwapExecuted` fact. -/
theorem acceptSwap_success_swaps_custody
    (s s' : SwapState) (swapId : Nat) (caller : Address)
    (hAB : (s.swaps swapId).tokenA ≠ (s.swaps swapId).tokenB)
    (h : acceptSwap s caller swapId = .ok s') :
    s'.card.owners (s.swaps swapId).tokenA = caller ∧
    s'.card.owners (s.swaps swapId).tokenB = (s.swaps swapId).tokenAOwner ∧
    (s'.swaps swapId).executed = true ∧
    s'.events = s.events ++
      [Ev.Transfer caller swapContractAddr (s.swaps swapId).tokenB,
       Ev.Transfer swapContractAddr caller (s.swaps swapId).tokenA,
       Ev.Transfer swapContractAddr (s.swaps swapId).tokenAOwner (s.swaps swapId).tokenB,
       Ev.SwapExecuted swapId (s.swaps swapId).tokenAOwner (s.swaps swapId).tokenBOwner] := by
  unfold acceptSwap at h
  split at h
  · simp at h
  split at h
  · simp at h
  split at h
  · simp at h
  split at h
  · simp at h
  rename_i hcaller
  rw [not_not] at hcaller
  split at h
  · simp at h
  split at h
  · simp at h
  split at h
  · simp at h
  rename_i c1 e1 ht1
  split at h
  · simp at h
  rename_i c2 e2 ht2
  split at h
  · simp at h
  rename_i c3 e3 ht3
  injection h with h
  subst h
  obtain ⟨hown1, _, _, hc1, he1⟩ := transferFrom_ok ht1
  obtain ⟨hown2, _, _, hc2, he2⟩ := transferFrom_ok ht2
  obtain ⟨hown3, _, _, hc3, he3⟩ := transferFrom_ok ht3
  subst hc1; subst hc2; subst hc3
  subst he1; subst he2; subst he3
  subst hcaller
  refine ⟨?_, ?_, ?_, ?_⟩
  · simp [upd, hAB]
  · simp [upd]
  · simp [upd]
  · simp

/-- Witness for C1: at the concrete pending world `witPending`, counterparty
11 accepts swap 1 and afterwards holds token 1, while proposer 10 holds
token 2, with the three transfer facts in order. -/
theorem acceptSwap_success_swaps_custody_witness :
    ((witPending.swaps 1).tokenA ≠ (witPending.swaps 1).tokenB ∧
     acceptSwap witPending 11 1 = .ok witAccepted) ∧
    (witAccepted.card.owners (witPending.swaps 1).tokenA = 11 ∧
     witAccepted.card.owners (witPending.swaps 1).tokenB = (witPending.swaps 1).tokenAOwner ∧
     (witAccepted.swaps 1).executed = true ∧
     witAccepted.events = witPending.events ++
       [Ev.Transfer 11 swapContractAddr (witPending.swaps 1).tokenB,
        Ev.Transfer swapContractAddr 11 (witPending.swaps 1).tokenA,
        Ev.Transfer swapContractAddr (witPending.swaps 1).tokenAOwner (witPending.swaps 1).tokenB,
        Ev.SwapExecuted 1 (witPending.swaps 1).tokenAOwner (witPending.swaps 1).tokenBOwner]) :=
  ⟨⟨by decide, rfl⟩,
   acceptSwap_success_swaps_custody witPending witAccepted 1 11 (by decide) rfl⟩

/-- C2 counterexample: in `witStale` the counterparty (account 11) no longer
holds token 2 (account 12 does, and the transfer cleared the approval), yet
`acceptSwap` fails with the approval revert "Contract not approved for
tokenB" — not with any ownership error — because the source has no
`ownerOf(tokenB) == msg.sender` re-check at all. -/
theorem acceptSwap_staleOwner_approval_error :
    witStale.card.owners (witStale.swaps 1).tokenB ≠ (witStale.swaps 1).tokenBOwner ∧
    acceptSwap witStale 11 1 = .error .contractNotApprovedForTokenB ∧
    Err.contractNotApprovedForTokenB ≠ Err.erc721IncorrectOwner ∧
    Err.contractNotApprovedForTokenB ≠ Err.notTokenBOwner ∧
    Err.contractNotApprovedForTokenB ≠ Err.notOwnerOfTokenA :=
  ⟨by decide, rfl, by decide, by decide, by decide⟩

/-- C2 amended: whenever the recorded counterparty no longer holds the
swap's `tokenB`, `acceptSwap` always fails (so the swap is never executed
with stale data), but the failure is the approval revert (the ERC721
transfer cleared the approval) or, if the new holder re-approved the
coordinator, the ERC721 incorrect-owner revert — not a coordinator-level
ownership check. -/
theorem acceptSwap_staleOwner_always_fails
    (s : SwapState) (swapId : Nat) (caller : Address)
    (hStale : s.card.owners (s.swaps swapId).tokenB ≠ (s.swaps swapId).tokenBOwner) :
    exceptIsOk (acceptSwap s caller swapId) = false := by
  cases hres : acceptSwap s caller swapId with
  | error e => rfl
  | ok s' =>
    obtain ⟨_, _, _, _, hown, _, _, _⟩ := acceptSwap_ok_inv hres
    exact absurd hown hStale

/-- Witness for the amended C2 at the concrete stale world `witStale`. -/
theorem acceptSwap_staleOwner_always_fails_witness :
    witStale.card.owners (witStale.swaps 1).tokenB ≠ (witStale.swaps 1).tokenBOwner ∧
    exceptIsOk (acceptSwap witStale 11 1) = false :=
  ⟨by decide, acceptSwap_staleOwner_always_fails witStale 1 11 (by decide)⟩

/-- C3 counterexample: after a successful `cancelSwap` the record is erased,
so a second `cancelSwap` on the same id fails with "Not the tokenA owner"
(the cleared record's owner is the zero address) — not with the
"Swap already executed" revert that plays the role of `SwapNotPending`. -/
theorem doubleCancel_owner_error_not_swapNotPending :
    cancelSwap witPending 10 1 = .ok witCancelled ∧
    cancelSwap witCancelled 10 1 = .error .notTokenAOwner ∧
    Err.notTokenAOwner ≠ Err.swapAlreadyExecuted :=
  ⟨rfl, rfl, by decide⟩

/-- C3 amended: a second state-mutating call on a settled swap id always
fails and moves no asset — after `acceptSwap` both entry points fail with
the already-executed revert; after `cancelSwap` the record is erased and
both fail the (zero-)owner checks; and while the `nonReentrant` lock is
held, every entry point fails with the reentrancy revert (the lock is taken
before any transfer; `transferFrom` itself performs no callback, so no call
can re-enter the coordinator). -/
theorem settled_swap_second_call_fails
    (s s' : SwapState) (swapId : Nat) (caller c2 : Address) (hc2 : c2 ≠ 0) :
    (acceptSwap s caller swapId = .ok s' →
       acceptSwap s' c2 swapId = .error .swapAlreadyExecuted ∧
       cancelSwap s' c2 swapId = .error .swapAlreadyExecuted) ∧
    (cancelSwap s caller swapId = .ok s' →
       acceptSwap s' c2 swapId = .error .notTokenBOwner ∧
       cancelSwap s' c2 swapId = .error .notTokenAOwner) ∧
    (s.paused = false → s.locked = true →
       acceptSwap s c2 swapId = .error .reentrantCall ∧
       cancelSwap s c2 swapId = .error .reentrantCall ∧
       createSwap s c2 swapId c2 swapId = .error .reentrantCall) := by
  refine ⟨?_, ?_, ?_⟩
  · intro h
    obtain ⟨hp, hl, _, _, _, _, _, hs'⟩ := acceptSwap_ok_inv h
    subst hs'
    constructor
    · unfold acceptSwap
      simp [hp, hl, upd]
    · unfold cancelSwap
      simp [hp, hl, upd]
  · intro h
    obtain ⟨hp, hl, _, _, _, _, hs'⟩ := cancelSwap_ok_inv h
    subst hs'
    constructor
    · unfold acceptSwap
      simp [hp, hl, upd, zeroSwap]
      intro hzero
      exact absurd hzero hc2
    · unfold cancelSwap
      simp [hp, hl, upd, zeroSwap]
      intro hzero
      exact absurd hzero hc2
  · intro hp hl
    refine ⟨?_, ?_, ?_⟩
    · unfold acceptSwap
      simp [hp, hl]
    · unfold cancelSwap
      simp [hp, hl]
    · unfold createSwap
      simp [hp, hl]

/-- Witness for the amended C3 at the concrete worlds: a second accept or
cancel after acceptance, and a second accept or cancel after cancellation,
all fail as stated; the locked variant fails with the reentrancy revert. -/
theorem settled_swap_second_call_fails_witness :
    ((10 : Address) ≠ 0 ∧ acceptSwap witPending 11 1 = .ok witAccepted) ∧
    (acceptSwap witAccepted 10 1 = .error .swapAlreadyExecuted ∧
     cancelSwap witAccepted 10 1 = .error .swapAlreadyExecuted) :=
  ⟨⟨by decide, rfl⟩,
   (settled_swap_second_call_fails witPending witAccepted 1 11 10 (by decide)).1 rfl⟩

/-- C4 counterexample: after proposer 10 cancels swap 1, a later
`acceptSwap` by the original counterparty 11 fails with "Not the tokenB
owner" (the erased record's counterparty is the zero address) — not with an
`UnknownSwap` or `SwapNotPending`-style revert; indeed the source reverts
with "Swap already executed" where the spec says `SwapNotPending`, and has
no unknown-id check at all. -/
theorem acceptAfterCancel_owner_error :
    cancelSwap witPending 10 1 = .ok witCancelled ∧
    acceptSwap witCancelled 11 1 = .error .notTokenBOwner ∧
    Err.notTokenBOwner ≠ Err.swapAlreadyExecuted :=
  ⟨rfl, rfl, by decide⟩

/-- C4 amended: if `cancelSwap` succeeds then the caller was the proposer
(`tokenAOwner`), the proposer again holds `tokenA`, the record is erased to
the all-zero struct, and every later `acceptSwap` on that id by any nonzero
caller fails — with the counterparty check "Not the tokenB owner" (the
erased record's counterparty is the zero address), not with an explicit
`UnknownSwap`/`SwapNotPending` revert. -/
theorem cancelSwap_success_returns_escrow
    (s s' : SwapState) (swapId : Nat) (caller : Address)
    (h : cancelSwap s caller swapId = .ok s') :
    caller = (s.swaps swapId).tokenAOwner ∧
    s'.card.owners (s.swaps swapId).tokenA = (s.swaps swapId).tokenAOwner ∧
    s'.swaps swapId = zeroSwap ∧
    (∀ c2 : Address, c2 ≠ 0 → acceptSwap s' c2 swapId = .error .notTokenBOwner) := by
  obtain ⟨hp, hl, _, hcaller, _, _, hs'⟩ := cancelSwap_ok_inv h
  subst hs'
  refine ⟨hcaller, by simp [upd], by simp [upd], ?_⟩
  intro c2 hc2
  unfold acceptSwap
  simp [hp, hl, upd, zeroSwap]
  intro hzero
  exact absurd hzero hc2

/-- Witness for the amended C4 at the concrete world `witPending`. -/
theorem cancelSwap_success_returns_escrow_witness :
    (cancelSwap witPending 10 1 = .ok witCancelled) ∧
    ((10 : Address) = (witPending.swaps 1).tokenAOwner ∧
     witCancelled.card.owners (witPending.swaps 1).tokenA = (witPending.swaps 1).tokenAOwner ∧
     witCancelled.swaps 1 = zeroSwap ∧
     acceptSwap witCancelled 11 1 = .error .notTokenBOwner) :=
  ⟨rfl,
   (cancelSwap_success_returns_escrow witPending witCancelled 1 10 rfl).1,
   (cancelSwap_success_returns_escrow witPending witCancelled 1 10 rfl).2.1,
   (cancelSwap_success_returns_escrow witPending witCancelled 1 10 rfl).2.2.1,
   (cancelSwap_success_returns_escrow witPending witCancelled 1 10 rfl).2.2.2 11 (by decide)⟩

/-- C10: whenever `cancelSwap` succeeds, the emitted `SwapCancelled` fact
carries the zero address in its `tokenAOwner` field (the record is deleted
before the event is emitted and the storage pointer then reads the cleared
slot), even though the actual proposer is nonzero; only the swap id field
identifies the cancelled swap. -/
theorem cancelSwap_event_carries_zero_owner
    (s s' : SwapState) (swapId : Nat) (caller : Address)
    (h : cancelSwap s caller swapId = .ok s') :
    s'.events = s.events ++
      [Ev.Transfer swapContractAddr (s.swaps swapId).tokenAOwner (s.swaps swapId).tokenA,
       Ev.SwapCancelled swapId 0] ∧
    (s.swaps swapId).tokenAOwner ≠ 0 := by
  obtain ⟨_, _, _, _, hao, _, hs'⟩ := cancelSwap_ok_inv h
  subst hs'
  exact ⟨by simp, hao⟩

/-- Witness for C10 at the concrete world `witPending`: the cancellation
fact is `SwapCancelled 1 0` although the proposer is account 10. -/
theorem cancelSwap_event_carries_zero_owner_witness :
    (cancelSwap witPending 10 1 = .ok witCancelled) ∧
    (witCancelled.events = witPending.events ++
       [Ev.Transfer swapContractAddr (witPending.swaps 1).tokenAOwner (witPending.swaps 1).tokenA,
        Ev.SwapCancelled 1 0] ∧
     (witPending.swaps 1).tokenAOwner ≠ 0) :=
  ⟨rfl, cancelSwap_event_carries_zero_owner witPending witCancelled 1 10 rfl⟩

/-- C5: every operation of coordinator and registry is all-or-nothing: a
failing call reverts, so the caller-observable state (the `runX` wrappers
encode the EVM rollback) is unchanged and no facts are appended to the log;
failures are the distinguishable named revert reasons of `Err`.  For
`createSwap` the possible failures are exactly its guard reverts: once the
four `require`s pass, the escrow `transferFrom` cannot fail, so no bare
ERC721 transfer revert escapes after the record was written. -/
theorem operations_all_or_nothing
    (s : SwapState) (c fromAddr toAddr tokenBOwner : Address)
    (tokenA tokenB swapId tokenId : Nat) (uri : String) :
    (∀ e, createSwap s c tokenA tokenBOwner tokenB = .error e →
       runCreateSwap s c tokenA tokenBOwner tokenB = s) ∧
    (∀ e, acceptSwap s c swapId = .error e → runAcceptSwap s c swapId = s) ∧
    (∀ e, cancelSwap s c swapId = .error e → runCancelSwap s c swapId = s) ∧
    (∀ e, cardMint s toAddr uri = .error e → runCardMint s toAddr uri = s) ∧
    (∀ e, cardTransferFrom s c fromAddr toAddr tokenId = .error e →
       runCardTransferFrom s c fromAddr toAddr tokenId = s) ∧
    (∀ e, createSwap s c tokenA tokenBOwner tokenB = .error e →
       e = .pausablePaused ∨ e = .reentrantCall ∨ e = .cannotSwapSameToken ∨
       e = .erc721InvalidTokenId ∨ e = .notOwnerOfTokenA ∨
       e = .tokenBNotOwnedBySpecifiedOwner ∨ e = .contractNotApprovedForTokenA) := by
  refine ⟨?_, ?_, ?_, ?_, ?_, ?_⟩
  · intro e h
    unfold runCreateSwap
    rw [h]
  · intro e h
    unfold runAcceptSwap
    rw [h]
  · intro e h
    unfold runCancelSwap
    rw [h]
  · intro e h
    unfold runCardMint
    rw [h]
  · intro e h
    unfold runCardTransferFrom
    rw [h]
  · intro e h
    unfold createSwap at h
    split at h
    · injection h with h
      exact .inl h.symm
    split at h
    · injection h with h
      exact .inr (.inl h.symm)
    split at h
    · injection h with h
      exact .inr (.inr (.inl h.symm))
    split at h
    · rename_i e' hoA
      injection h with h
      subst h
      exact .inr (.inr (.inr (.inl (ownerOf_error hoA))))
    rename_i oA hoA
    split at h
    · injection h with h
      exact .inr (.inr (.inr (.inr (.inl h.symm))))
    rename_i hoAc
    split at h
    · rename_i e' hoB
      injection h with h
      subst h
      exact .inr (.inr (.inr (.inl (ownerOf_error hoB))))
    rename_i oB hoB
    split at h
    · injection h with h
      exact .inr (.inr (.inr (.inr (.inr (.inl h.symm)))))
    rename_i hoBo
    split at h
    · rename_i e' hap
      injection h with h
      subst h
      exact .inr (.inr (.inr (.inl (getApproved_error hap))))
    rename_i ap hap
    split at h
    · injection h with h
      exact .inr (.inr (.inr (.inr (.inr (.inr h.symm)))))
    rename_i hapA
    split at h
    · rename_i e' ht
      rw [not_not] at hoAc hoBo hapA
      obtain ⟨hoA', hzA⟩ := ownerOf_ok hoA
      obtain ⟨_, hap'⟩ := getApproved_ok hap
      subst hoAc; subst hapA
      rw [transferFrom_by_approved_operator_ok s.card oA tokenA hoA'.symm
            (hoA'.symm ▸ hzA) hap'.symm] at ht
      simp at ht
    · simp at h

/-- Witness for C5: a failing call (here `createSwap` while paused) leaves
the caller-observable state unchanged. -/
theorem operations_all_or_nothing_witness :
    createSwap witPaused 10 1 11 2 = .error .pausablePaused ∧
    runCreateSwap witPaused 10 1 11 2 = witPaused :=
  ⟨rfl, (operations_all_or_nothing witPaused 10 0 0 11 1 2 1 1 "").1 .pausablePaused rfl⟩

/-- C6: on an unpaused, unlocked coordinator, proposing a swap of an asset
for itself always fails with "Cannot swap the same token", for every caller,
counterparty and asset id, regardless of ownership or approval status (the
check precedes the ownership and approval checks, which is why no ownership
or approval hypothesis is needed); the revert changes no state. -/
theorem createSwap_identicalAssets_fails
    (s : SwapState) (caller tokenBOwner : Address) (a : Nat)
    (hp : s.paused = false) (hl : s.locked = false) :
    createSwap s caller a tokenBOwner a = .error .cannotSwapSameToken ∧
    runCreateSwap s caller a tokenBOwner a = s := by
  have h : createSwap s caller a tokenBOwner a = .error .cannotSwapSameToken := by
    unfold createSwap
    simp [hp, hl]
  refine ⟨h, ?_⟩
  unfold runCreateSwap
  rw [h]

/-- Witness for C6 with a caller who owns neither token and no approval in
place. -/
theorem createSwap_identicalAssets_fails_witness :
    (witFresh.paused = false ∧ witFresh.locked = false) ∧
    (createSwap witFresh 12 2 11 2 = .error .cannotSwapSameToken ∧
     runCreateSwap witFresh 12 2 11 2 = witFresh) :=
  ⟨⟨rfl, rfl⟩, createSwap_identicalAssets_fails witFresh 12 11 2 rfl rfl⟩

/-- C7: a successful `createSwap` returns the current `nextSwapId` (which
starts at 1 on deployment and is bumped by one, so ids are sequential and
never reused), records the swap as pending (`executed = false`) with the
given parties and assets, escrows `tokenA` with the coordinator, leaves the
counterparty's `tokenB` (holder and approval) untouched, and emits exactly
the escrow `Transfer` and the `SwapCreated` fact. -/
theorem createSwap_success_escrows_and_assigns_id
    (s s' : SwapState) (caller tokenBOwner : Address) (tokenA tokenB swapId : Nat)
    (h : createSwap s caller tokenA tokenBOwner tokenB = .ok (s', swapId)) :
    swapId = s.nextSwapId ∧
    s'.nextSwapId = s.nextSwapId + 1 ∧
    (initState caller).nextSwapId = 1 ∧
    s'.swaps swapId =
      { tokenAOwner := caller, tokenA := tokenA, tokenBOwner := tokenBOwner,
        tokenB := tokenB, executed := false } ∧
    s'.card.owners tokenA = swapContractAddr ∧
    s'.card.owners tokenB = s.card.owners tokenB ∧
    s'.card.tokenApprovals tokenB = s.card.tokenApprovals tokenB ∧
    s'.events = s.events ++
      [Ev.Transfer caller swapContractAddr tokenA,
       Ev.SwapCreated swapId caller tokenA tokenBOwner tokenB] := by
  obtain ⟨hp, hl, hab, hoA, hzA, hoB, hzB, hap, hid, hs'⟩ := createSwap_ok_inv h
  subst hs'; subst hid
  have hba : tokenB ≠ tokenA := Ne.symm hab
  refine ⟨rfl, rfl, rfl, by simp [upd], by simp [upd], by simp [upd, hba],
          by simp [upd, hba], by simp⟩

/-- Witness for C7 at the concrete world `witFresh`. -/
theorem createSwap_success_escrows_and_assigns_id_witness :
    (createSwap witFresh 10 1 11 2 = .ok (witCreated, 1)) ∧
    ((1 : Nat) = witFresh.nextSwapId ∧
     witCreated.nextSwapId = witFresh.nextSwapId + 1 ∧
     (initState 10).nextSwapId = 1 ∧
     witCreated.swaps 1 =
       { tokenAOwner := 10, tokenA := 1, tokenBOwner := 11, tokenB := 2,
         executed := false } ∧
     witCreated.card.owners 1 = swapContractAddr ∧
     witCreated.card.owners 2 = witFresh.card.owners 2 ∧
     witCreated.card.tokenApprovals 2 = witFresh.card.tokenApprovals 2 ∧
     witCreated.events = witFresh.events ++
       [Ev.Transfer 10 swapContractAddr 1, Ev.SwapCreated 1 10 1 11 2]) :=
  ⟨rfl, createSwap_success_escrows_and_assigns_id witFresh witCreated 10 11 1 2 1 rfl⟩

/-- C8: while paused, `createSwap`, `acceptSwap` and `cancelSwap` all fail
with the pause revert (changing no state); `pause` and `unpause` succeed
only when the caller is the `Ownable` owner; and a successful `unpause`
only clears the pause flag — every swap record, the card storage, the id
counter and the event log are unchanged, so no terminal swap is altered. -/
theorem paused_blocks_operations_and_admin_gated
    (s s1 s2 : SwapState) (c : Address) (tokenA tokenB swapId : Nat)
    (tokenBOwner : Address) :
    (s.paused = true →
       createSwap s c tokenA tokenBOwner tokenB = .error .pausablePaused ∧
       acceptSwap s c swapId = .error .pausablePaused ∧
       cancelSwap s c swapId = .error .pausablePaused) ∧
    (pause s c = .ok s1 → c = s.owner) ∧
    (unpause s c = .ok s2 →
       c = s.owner ∧ s2.swaps = s.swaps ∧ s2.card = s.card ∧
       s2.paused = false ∧ s2.nextSwapId = s.nextSwapId ∧
       s2.events = s.events) := by
  refine ⟨?_, ?_, ?_⟩
  · intro hp
    refine ⟨?_, ?_, ?_⟩
    · unfold createSwap
      simp [hp]
    · unfold acceptSwap
      simp [hp]
    · unfold cancelSwap
      simp [hp]
  · intro h
    unfold pause at h
    split at h
    · simp at h
    rename_i hc
    rw [not_not] at hc
    exact hc
  · intro h
    unfold unpause at h
    split at h
    · simp at h
    rename_i hc
    rw [not_not] at hc
    split at h
    · simp at h
    injection h with h
    subst h
    exact ⟨hc, rfl, rfl, rfl, rfl, rfl⟩

/-- Witness for C8: the paused world blocks all three operations, and the
owner's `unpause` restores exactly `witPending`. -/
theorem paused_blocks_operations_and_admin_gated_witness :
    (witPaused.paused = true ∧
     createSwap witPaused 10 1 11 2 = .error .pausablePaused ∧
     acceptSwap witPaused 11 1 = .error .pausablePaused ∧
     cancelSwap witPaused 10 1 = .error .pausablePaused) ∧
    (unpause witPaused 10 = .ok witPending ∧
     (10 : Address) = witPaused.owner ∧
     witPending.swaps = witPaused.swaps ∧ witPending.card = witPaused.card ∧
     witPending.paused = false ∧ witPending.nextSwapId = witPaused.nextSwapId ∧
     witPending.events = witPaused.events) :=
  ⟨⟨rfl,
    (paused_blocks_operations_and_admin_gated witPaused witPaused witPending 10 1 2 1 11).1 rfl⟩,
   rfl,
   (paused_blocks_operations_and_admin_gated witPaused witPaused witPending 10 1 2 1 11).2.2 rfl⟩

/-- C9: a swap id whose stored record is the all-zero struct — every id the
initial state has, hence every id never created, and every id erased by
`cancelSwap` (which `cancelSwap_ok_inv` shows writes `zeroSwap`) — can never
transition: for every nonzero caller both `acceptSwap` and `cancelSwap`
fail (with the ownership checks against the zero account when the system is
unpaused and unlocked, with the pause/reentrancy reverts otherwise), so no
asset can be released through a dead id even though the source has no
explicit existence check. -/
theorem dead_swap_id_never_transitions
    (s : SwapState) (swapId : Nat) (caller c0 : Address)
    (hz : s.swaps swapId = zeroSwap) (hc : caller ≠ 0) :
    (∃ e, acceptSwap s caller swapId = .error e) ∧
    (∃ e, cancelSwap s caller swapId = .error e) ∧
    (s.paused = false → s.locked = false →
       acceptSwap s caller swapId = .error .notTokenBOwner ∧
       cancelSwap s caller swapId = .error .notTokenAOwner) ∧
    (initState c0).swaps swapId = zeroSwap := by
  have hmain : s.paused = false → s.locked = false →
      acceptSwap s caller swapId = .error .notTokenBOwner ∧
      cancelSwap s caller swapId = .error .notTokenAOwner := by
    intro hp hl
    constructor
    · unfold acceptSwap
      simp [hp, hl, hz, zeroSwap]
      intro h0
      exact absurd h0 hc
    · unfold cancelSwap
      simp [hp, hl, hz, zeroSwap]
      intro h0
      exact absurd h0 hc
  refine ⟨?_, ?_, hmain, rfl⟩
  · by_cases hp : s.paused = true
    · exact ⟨.pausablePaused, by unfold acceptSwap; simp [hp]⟩
    · by_cases hl : s.locked = true
      · exact ⟨.reentrantCall, by unfold acceptSwap; simp [hp, hl]⟩
      · exact ⟨.notTokenBOwner,
          (hmain (by simpa using hp) (by simpa using hl)).1⟩
  · by_cases hp : s.paused = true
    · exact ⟨.pausablePaused, by unfold cancelSwap; simp [hp]⟩
    · by_cases hl : s.locked = true
      · exact ⟨.reentrantCall, by unfold cancelSwap; simp [hp, hl]⟩
      · exact ⟨.notTokenAOwner,
          (hmain (by simpa using hp) (by simpa using hl)).2⟩

/-- Witness for C9 at the concrete world `witFresh` (id 7 was never
created). -/
theorem dead_swap_id_never_transitions_witness :
    (witFresh.swaps 7 = zeroSwap ∧ (11 : Address) ≠ 0) ∧
    (acceptSwap witFresh 11 7 = .error .notTokenBOwner ∧
     cancelSwap witFresh 11 7 = .error .notTokenAOwner) ∧
    (initState 10).swaps 7 = zeroSwap :=
  ⟨⟨rfl, by decide⟩,
   (dead_swap_id_never_transitions witFresh 7 11 10 rfl (by decide)).2.2.1 rfl rfl,
   (dead_swap_id_never_transitions witFresh 7 11 10 rfl (by decide)).2.2.2⟩

end PokeTrade
